import Mathlib

/-!
Shallow embedding of the resilience, token-resolution and recommendation
core of the music-discovery service, together with theorems settling the
specification claims about it.

Conventions of the embedding:
* Wall-clock instants and durations are whole seconds (`Nat`).
* Python exceptions become `Except`/`Option` values; an oracle parameter
  stands for each external effect (HTTP calls, decryption, randomness).
* Python truthiness of strings (`""` is falsy) is made explicit wherever
  the source relies on it.
-/

namespace MusicDiscovery

/-! ## Circuit breaker (`app/resilience.py`, class `CircuitBreaker`) -/

/-- The three states of `CircuitBreaker.state` ("closed" / "open" / "half-open"). -/
inductive BreakerState where
  | closed
  | opened
  | halfOpen
deriving DecidableEq, Repr

/-- State carried by a `CircuitBreaker` instance.  `last_failure_time` is an
absolute instant in seconds (`none` until the first recorded failure). -/
structure CircuitBreaker where
  failure_threshold : Nat
  recovery_timeout : Nat
  failure_count : Nat
  last_failure_time : Option Nat
  state : BreakerState
deriving DecidableEq, Repr

/-- Constructor `CircuitBreaker.__init__`: fresh breaker in the closed state. -/
def CircuitBreaker.init (failure_threshold recovery_timeout : Nat) : CircuitBreaker :=
  { failure_threshold := failure_threshold
    recovery_timeout := recovery_timeout
    failure_count := 0
    last_failure_time := none
    state := .closed }

/-- Python's `timedelta.seconds` attribute: the seconds component of the
elapsed duration, i.e. the total number of elapsed seconds modulo one day
(86400 s); whole days are dropped. -/
def timedeltaSeconds (elapsed : Nat) : Nat := elapsed % 86400

/-- Method `CircuitBreaker.is_open(self)` evaluated at instant `now`.  Returns the
boolean result together with the (possibly mutated) breaker: in the open
state, when `(utcnow() - last_failure_time).seconds > recovery_timeout`,
the state is set to "half-open" and `False` is returned. -/
def CircuitBreaker.is_open (b : CircuitBreaker) (now : Nat) : Bool × CircuitBreaker :=
  match b.state with
  | .closed => (false, b)
  | .opened =>
      if timedeltaSeconds (now - (b.last_failure_time.getD 0)) > b.recovery_timeout then
        (false, { b with state := .halfOpen })
      else
        (true, b)
  | .halfOpen => (false, b)

/-- Method `CircuitBreaker.record_success(self)`: only acts in half-open. -/
def CircuitBreaker.record_success (b : CircuitBreaker) : CircuitBreaker :=
  if b.state = .halfOpen then
    { b with state := .closed, failure_count := 0 }
  else
    b

/-- Method `CircuitBreaker.record_failure(self)` at instant `now`: increments the
counter, stamps the time, and opens the breaker once the threshold is
reached (unless it is already open). -/
def CircuitBreaker.record_failure (b : CircuitBreaker) (now : Nat) : CircuitBreaker :=
  let b' := { b with failure_count := b.failure_count + 1, last_failure_time := some now }
  if b'.failure_count ≥ b'.failure_threshold ∧ b'.state ≠ .opened then
    { b' with state := .opened }
  else
    b'

/-- The externally visible events that mutate a breaker over its lifetime:
`success` is `record_success()`, `failure t` is `record_failure()` at
instant `t`, and `checkOpen t` is an `is_open()` probe at instant `t`
(which can transition open → half-open). -/
inductive BreakerEvent where
  | success
  | failure (now : Nat)
  | checkOpen (now : Nat)

/-- One breaker event applied to a breaker. -/
def CircuitBreaker.step (b : CircuitBreaker) : BreakerEvent → CircuitBreaker
  | .success => b.record_success
  | .failure now => b.record_failure now
  | .checkOpen now => (b.is_open now).2

/-- A breaker after a sequence of events. -/
def CircuitBreaker.run (b : CircuitBreaker) (evs : List BreakerEvent) : CircuitBreaker :=
  evs.foldl CircuitBreaker.step b

/-- Breaker states reachable from a freshly constructed instance. -/
def BreakerReachable (b : CircuitBreaker) : Prop :=
  ∃ th rt evs, b = (CircuitBreaker.init th rt).run evs

/-! ## Retry executor (`app/resilience.py`, `retry_with_exponential_backoff`) -/

/-- Outcome of one invocation of the wrapped coroutine: it returns a value,
raises an exception matching `retryable_exceptions`, or raises one that
does not match. -/
inductive Attempt (ε α : Type) where
  | ok (a : α)
  | retryable (e : ε)
  | fatal (e : ε)

/-- The retry loop from attempt index `k` with `remaining` retries left.
Returns the overall outcome and the number of invocations performed.
A `fatal` exception is not caught by the `except retryable_exceptions`
clause and propagates at once; a `retryable` one is re-raised unchanged
when no retries remain. -/
def retryFrom (attempts : Nat → Attempt ε α) (k remaining : Nat) : Except ε α × Nat :=
  match attempts k with
  | .ok a => (.ok a, 1)
  | .fatal e => (.error e, 1)
  | .retryable e =>
      match remaining with
      | 0 => (.error e, 1)
      | r + 1 =>
          let rest := retryFrom attempts (k + 1) r
          (rest.1, rest.2 + 1)

/-- Function `retry_with_exponential_backoff(func, max_retries=N, ...)`; the value of
attempt `k` (0-based) is `attempts k`.  The backoff sleeps between
attempts do not affect the functional outcome and are modelled separately
by `backoffDelay`. -/
def retry_with_exponential_backoff (attempts : Nat → Attempt ε α) (max_retries : Nat) :
    Except ε α × Nat :=
  retryFrom attempts 0 max_retries

/-- The delay computed before re-running attempt `k+1` (after 0-based
attempt `k` failed): `min(initial_delay * exponential_base ** k, max_delay)`,
scaled by the sampled jitter factor `j k ∈ [0.5, 1.0]` when jitter is on. -/
def backoffDelay (initial_delay max_delay exponential_base : ℚ) (jitter : Bool)
    (j : Nat → ℚ) (k : Nat) : ℚ :=
  let d := min (initial_delay * exponential_base ^ k) max_delay
  if jitter then d * j k else d

/-! ## Gateway call (`app/spotify_client.py`, `_spotify_api_call`)

`_spotify_api_call` runs the whole retry sequence as the single function
wrapped by `spotify_circuit_breaker.call_with_breaker`: the breaker records
one failure exactly when the retry call raises, and one success when it
returns. -/

/-- Error surfaced by a breaker-wrapped gateway call. -/
inductive GatewayError (ε : Type) where
  | circuitOpen
  | upstream (e : ε)

/-- Result of `_spotify_api_call`, with observability counters for the
number of invocations of the wrapped request function and the number of
`record_failure` calls made on the breaker. -/
structure GatewayCallResult (ε α : Type) where
  result : Except (GatewayError ε) α
  breaker : CircuitBreaker
  attemptsMade : Nat
  failuresRecorded : Nat

/-- The call `call_with_breaker(retry_with_exponential_backoff, _make_request, max_retries, ...)`
at instant `now`: if `is_open()` the call is rejected without invoking the
wrapped function; otherwise the retry sequence runs and exactly one
`record_success`/`record_failure` is applied according to its outcome. -/
def spotify_api_call (b : CircuitBreaker) (now : Nat) (attempts : Nat → Attempt ε α)
    (max_retries : Nat) : GatewayCallResult ε α :=
  let checked := b.is_open now
  if checked.1 then
    { result := .error .circuitOpen, breaker := checked.2, attemptsMade := 0, failuresRecorded := 0 }
  else
    match retry_with_exponential_backoff attempts max_retries with
    | (.ok a, c) =>
        { result := .ok a, breaker := checked.2.record_success, attemptsMade := c,
          failuresRecorded := 0 }
    | (.error e, c) =>
        { result := .error (.upstream e), breaker := checked.2.record_failure now,
          attemptsMade := c, failuresRecorded := 1 }

/-! ## Token vault (`app/db.py`, rows of the single `UserToken` table)

Both user-scoped and session-scoped token records live in the one
`user_tokens` table; every helper below filters on `UserToken.id == key`
alone, so the `type` column ("user_tokens" / "session_tokens") is not part
of the key.  Expiry instants (`expires_at`, an ISO string in the source)
are modelled as absolute seconds. -/

/-- One row of the `UserToken` table. -/
structure TokenRow where
  id : String
  user_id : String
  access_token : String
  refresh_token : String
  expires_at : Nat
  type : String
deriving DecidableEq, Repr

/-- The table contents, in insertion order. -/
abbrev TokenTable := List TokenRow

/-- Lookup `db.query(UserToken).filter(UserToken.id == key).first()`. -/
def findRow (t : TokenTable) (key : String) : Option TokenRow :=
  List.find? (fun r => r.id = key) t

/-- Helper `db.put_user_tokens(user_id, access, refresh, expires_at)`: update the
row whose `id` equals `user_id` in place (leaving `user_id` and `type`
untouched, as the source only assigns the three token fields), or insert a
fresh row with `type = "user_tokens"`. -/
def put_user_tokens (t : TokenTable) (user_id access refresh : String) (exp : Nat) :
    TokenTable :=
  match findRow t user_id with
  | some _ =>
      List.map (fun r =>
        if r.id = user_id then
          { r with access_token := access, refresh_token := refresh, expires_at := exp }
        else r) t
  | none =>
      t ++ [{ id := user_id, user_id := user_id, access_token := access,
              refresh_token := refresh, expires_at := exp, type := "user_tokens" }]

/-- Helper `db.get_user_tokens(user_id)`: plain lookup by `id`. -/
def get_user_tokens (t : TokenTable) (user_id : String) : Option TokenRow :=
  findRow t user_id

/-- Helper `db.put_session_tokens(session_id, user_id, access, refresh, expires_at)`:
update the row whose `id` equals `session_id` in place (this variant also
reassigns `user_id`, but not `type`), or insert a fresh row with
`type = "session_tokens"`. -/
def put_session_tokens (t : TokenTable) (session_id user_id access refresh : String)
    (exp : Nat) : TokenTable :=
  match findRow t session_id with
  | some _ =>
      List.map (fun r =>
        if r.id = session_id then
          { r with user_id := user_id, access_token := access, refresh_token := refresh,
                   expires_at := exp }
        else r) t
  | none =>
      t ++ [{ id := session_id, user_id := user_id, access_token := access,
              refresh_token := refresh, expires_at := exp, type := "session_tokens" }]

/-- Helper `db.get_session_tokens(session_id)`: plain lookup by `id`. -/
def get_session_tokens (t : TokenTable) (session_id : String) : Option TokenRow :=
  findRow t session_id

/-- Primary-key discipline of the table: all `id`s distinct. -/
def KeysUnique (t : TokenTable) : Prop :=
  List.Nodup (List.map TokenRow.id t)

/-! ## Token resolution (`app/routes/auth_routes.py` `get_current_user`,
`app/routes/tracks.py` `resolve_user_and_token`)

JWT verification, Fernet decryption and the refresh HTTP exchange are
external effects, passed in as oracles:
* `dec c = some p` when `crypto.decrypt(c)` returns `p`, `none` when it raises;
* `enc` is `crypto.encrypt`;
* `refresh r` is `oauth.refresh_spotify_token(r)` — `.error ()` when it
  raises its `HTTPException`. -/

/-- The decoded JWT payload fields the resolvers read. -/
structure JwtPayload where
  user_id : String
  session_id : Option String
  spotify_access_token : Option String
deriving DecidableEq, Repr

/-- Python truthiness of an optional string: `None` and `""` are falsy. -/
def truthyOpt : Option String → Bool
  | none => false
  | some s => s ≠ ""

/-- Python truthiness of a string: `""` is falsy. -/
def truthyStr (s : String) : Bool := s ≠ ""

/-- Body of a successful refresh-grant response. -/
structure RefreshData where
  access_token : String
  refresh_token : Option String
  expires_in : Nat
deriving DecidableEq, Repr

/-- Counters observing the effectful steps a resolution performs. -/
structure ResolveTrace where
  sessionLookups : Nat
  userLookups : Nat
  refreshCalls : Nat
deriving DecidableEq, Repr

/-- How `get_current_user` terminates when no usable token is produced. -/
inductive ResolveErr where
  /-- the final `raise HTTPException(401, "Spotify token unavailable")` -/
  | unauthenticated
  /-- `refresh_spotify_token` raised and the exception propagated -/
  | refreshFailed
  /-- `decrypt` raised outside its local `try` (on a refresh-token field)
  and escaped to the outer handler -/
  | decryptFatal
deriving DecidableEq, Repr

/-- Outcome of one vault branch (session-scoped or user-scoped) of
`get_current_user`: given the looked-up record, run the decrypt /
expiry-check / refresh block and report the token now held, the table
after any persist, and whether a refresh was attempted.  `put` performs
the persistence of the refreshed pair for this branch. -/
def vaultBranch (dec : String → Option String) (enc : String → String)
    (refresh : String → Except Unit RefreshData) (now : Nat)
    (put : TokenTable → String → String → Nat → TokenTable)
    (t : TokenTable) (rec : TokenRow) :
    Except ResolveErr (Option String × TokenTable × Nat) :=
  -- try: spotify_token = decrypt(rec["access_token"]) except: spotify_token = None
  let tok0 : Option String := dec rec.access_token
  -- if not spotify_token or (expires_at and fromisoformat(expires_at) <= utcnow()):
  if ¬ truthyOpt tok0 ∨ rec.expires_at ≤ now then
    -- refresh_token_val = decrypt(refresh_enc) if refresh_enc else None
    if truthyStr rec.refresh_token then
      match dec rec.refresh_token with
      | none => .error .decryptFatal
      | some refresh_token_val =>
          if truthyStr refresh_token_val then
            match refresh refresh_token_val with
            | .error _ => .error .refreshFailed
            | .ok td =>
                let enc_access := enc td.access_token
                let enc_refresh := enc ((td.refresh_token.filter truthyStr).getD refresh_token_val)
                let new_exp := now + td.expires_in
                .ok (some td.access_token, put t enc_access enc_refresh new_exp, 1)
          else
            .ok (tok0, t, 0)
    else
      .ok (tok0, t, 0)
  else
    .ok (tok0, t, 0)

/-- Token resolution performed by `GET /api/auth/me` (`get_current_user`),
after JWT verification, up to the final profile fetch.  Returns the bearer
token it would use together with the updated table, or the error that
escapes. -/
def get_current_user (dec : String → Option String) (enc : String → String)
    (refresh : String → Except Unit RefreshData) (now : Nat)
    (t : TokenTable) (payload : JwtPayload) :
    Except ResolveErr (String × TokenTable) × ResolveTrace :=
  -- Prefer embedded token in JWT (stateless fallback)
  let spotify_token := payload.spotify_access_token
  -- Prefer session-scoped tokens
  let afterSession :
      Except ResolveErr (Option String × TokenTable × ResolveTrace) :=
    match payload.session_id with
    | some sid =>
        if ¬ truthyOpt spotify_token ∧ truthyStr sid then
          match get_session_tokens t sid with
          | some rec =>
              match vaultBranch dec enc refresh now
                  (fun tb a r e => put_session_tokens tb sid payload.user_id a r e) t rec with
              | .error err => .error err
              | .ok (tok, t', rc) =>
                  .ok (tok, t', ⟨1, 0, rc⟩)
          | none => .ok (spotify_token, t, ⟨1, 0, 0⟩)
        else .ok (spotify_token, t, ⟨0, 0, 0⟩)
    | none => .ok (spotify_token, t, ⟨0, 0, 0⟩)
  match afterSession with
  | .error err => (.error err, ⟨1, 0, if err = .refreshFailed then 1 else 0⟩)
  | .ok (tok1, t1, tr1) =>
      -- Fallback to user-scoped legacy tokens
      let afterUser :
          Except ResolveErr (Option String × TokenTable × ResolveTrace) :=
        if ¬ truthyOpt tok1 then
          match get_user_tokens t1 payload.user_id with
          | some rec =>
              match vaultBranch dec enc refresh now
                  (fun tb a r e => put_user_tokens tb payload.user_id a r e) t1 rec with
              | .error err => .error err
              | .ok (tok, t', rc) =>
                  .ok (tok, t', ⟨tr1.sessionLookups, 1, tr1.refreshCalls + rc⟩)
          | none => .ok (tok1, t1, ⟨tr1.sessionLookups, 1, tr1.refreshCalls⟩)
        else .ok (tok1, t1, tr1)
      match afterUser with
      | .error err =>
          (.error err, ⟨tr1.sessionLookups, 1,
            tr1.refreshCalls + (if err = .refreshFailed then 1 else 0)⟩)
      | .ok (tok2, t2, tr2) =>
          if truthyOpt tok2 then
            (.ok (tok2.getD "", t2), tr2)
          else
            (.error .unauthenticated, tr2)

/-- Token resolution performed by the tracks route
(`resolve_user_and_token`): given the JWT-verification outcome (`none`
when verification raised), look the session record up first, then the
user record, and only then fall back to the token embedded in the JWT.
No refresh and no writes happen here.  Returns `(user_id, token, trace)`. -/
def resolve_user_and_token (DEMO_USER_ID : String) (dec : String → Option String)
    (t : TokenTable) (auth : Option JwtPayload) :
    String × Option String × ResolveTrace :=
  match auth with
  | none => (DEMO_USER_ID, none, ⟨0, 0, 0⟩)
  | some payload =>
      let step1 : Option String × ResolveTrace :=
        match payload.session_id with
        | some sid =>
            if truthyStr sid then
              match get_session_tokens t sid with
              | some rec => (dec rec.access_token, ⟨1, 0, 0⟩)
              | none => (none, ⟨1, 0, 0⟩)
            else (none, ⟨0, 0, 0⟩)
        | none => (none, ⟨0, 0, 0⟩)
      let step2 : Option String × ResolveTrace :=
        if ¬ truthyOpt step1.1 then
          match get_user_tokens t payload.user_id with
          | some rec => (dec rec.access_token, ⟨step1.2.sessionLookups, 1, 0⟩)
          | none => (none, ⟨step1.2.sessionLookups, 1, 0⟩)
        else step1
      let token : Option String :=
        if ¬ truthyOpt step2.1 then payload.spotify_access_token else step2.1
      (payload.user_id, token, step2.2)

/-! ## Recommendation synthesis (`app/spotify_client.py`,
`get_spotify_recommendations` and its helpers) and the base route
(`app/routes/recommendations.py`, `recommendations_base`).

HTTP calls are oracles on a `Gateway`; `.error ()` is a raised exception.
`random.shuffle` is an injectable permutation `shuffle`; the Python
`set` iteration orders (`list(set(...))`) are modelled in first-insertion
order, which no claim depends on. -/

/-- Constant `MAX_SEEDS` from `app/spotify_client.py`. -/
def MAX_SEEDS : Nat := 5

/-- Constant `DEFAULT_GENRES` from `app/spotify_client.py`. -/
def DEFAULT_GENRES : List String := ["pop", "rock", "dance", "edm", "indie"]

/-- The artist fields the synthesizer reads. -/
structure Artist where
  id : String
  name : String
  genres : List String
deriving DecidableEq, Repr

/-- The album fields the synthesizer reads. -/
structure Album where
  name : String
  release_date : String
deriving DecidableEq, Repr

/-- A raw track object as returned by the upstream API. -/
structure Track where
  id : String
  name : String
  artists : List Artist
  album : Album
  popularity : Option Nat
  preview_url : Option String
deriving DecidableEq, Repr

/-- The per-track projection built by the filter loop at the end of
`get_spotify_recommendations`. -/
structure TrackOut where
  trackId : String
  title : String
  artist : String
  albumName : String
  albumReleaseDate : String
  popularity : Option Nat
  previewUrl : Option String
deriving DecidableEq, Repr

/-- The `seeds_used` dictionary of the result metadata: which keys are
present and with which values. -/
structure SeedsUsed where
  seed_genres : Option (List String) := none
  seed_artists : Option (List String) := none
  seed_tracks : Option (List String) := none
  /-- the `"source": "user_top_tracks"` entry -/
  source_top_tracks : Bool := false
deriving DecidableEq, Repr

/-- The `meta` object returned alongside the tracks. -/
structure Meta where
  market : Option String
  fallback : String
  seedsUsed : SeedsUsed
deriving DecidableEq, Repr

/-- Call counters for the upstream operations a synthesis performs. -/
structure SynthCalls where
  topArtistCalls : Nat := 0
  topTrackCalls : Nat := 0
deriving DecidableEq, Repr

/-- The full response dictionary a route caches and returns. -/
structure RouteResponse where
  results : List TrackOut
  meta : Option Meta
deriving DecidableEq, Repr

/-- Oracles for every upstream interaction of the synthesizer and route.
Each `Except Unit _` result is `.error ()` when the underlying call would
raise. -/
structure Gateway where
  /-- `_spotify_api_call` on `/search` with `q=genre:<g>` (one entry of the
  loop in `_search_tracks_by_genres`) -/
  searchTracksByGenre : String → Except Unit (List Track)
  /-- `/artists/{id}/top-tracks` (one entry of the loop in
  `_get_tracks_from_artists`) -/
  artistTopTracks : String → Except Unit (List Track)
  /-- `/tracks/{id}` (one entry of the loop in `_get_related_tracks`) -/
  trackLookup : String → Except Unit Track
  /-- `get_user_top_artists(token, limit=10, time_range)`; `.error ()` when
  it raises (its 401 path) — all other failures already return `[]` inside
  that helper -/
  topArtists : String → Except Unit (List Artist)
  /-- `get_user_top_tracks(token, limit, time_range)` -/
  topTracks : String → Except Unit (List Track)
  /-- `redis_cache_get` — backend errors are already swallowed to a miss -/
  cacheGet : String → Option RouteResponse

/-- Helper `_search_tracks_by_genres`: per-genre search over the first 3 genres,
failures skipped, result truncated to `limit * 2`. -/
def search_tracks_by_genres (gw : Gateway) (genres : List String) (limit : Nat) :
    List Track :=
  (((genres.take 3).map (fun g =>
      match gw.searchTracksByGenre g with
      | .ok ts => ts
      | .error _ => [])).flatten).take (limit * 2)

/-- Helper `_get_tracks_from_artists`: top tracks of the first 5 artists,
failures skipped. -/
def tracks_from_artists (gw : Gateway) (artist_ids : List String) : List Track :=
  ((artist_ids.take 5).map (fun a =>
      match gw.artistTopTracks a with
      | .ok ts => ts
      | .error _ => [])).flatten

/-- Helper `_get_related_tracks`: collect up to 2 artist ids from each of the
first 5 seed tracks (de-duplicated through a set), then fetch those
artists' top tracks. -/
def related_tracks (gw : Gateway) (track_ids : List String) : List Track :=
  let artist_ids :=
    (((track_ids.take 5).map (fun tid =>
        match gw.trackLookup tid with
        | .ok td => (td.artists.take 2).map Artist.id
        | .error _ => [])).flatten).eraseDups
  if artist_ids ≠ [] then tracks_from_artists gw artist_ids else []

/-- The final filter/projection loop of `get_spotify_recommendations`:
drop tracks with `track.get("popularity", 0) < min_popularity` (when the
threshold is given) and project the remaining fields. -/
def projectTracks (min_popularity : Option Nat) (ts : List Track) : List TrackOut :=
  (ts.filter (fun t =>
      match min_popularity with
      | some mp => decide (mp ≤ t.popularity.getD 0)
      | none => true)).map (fun t =>
    { trackId := t.id
      title := t.name
      artist := ((t.artists.head?).map Artist.name).getD ""
      albumName := t.album.name
      albumReleaseDate := t.album.release_date
      popularity := t.popularity
      previewUrl := t.preview_url })

/-- Input parameters of `get_spotify_recommendations`. -/
structure SynthInput where
  limit : Nat
  genres : Option (List String) := none
  seed_artists : Option (List String) := none
  seed_tracks : Option (List String) := none
  min_popularity : Option Nat := none
  market_override : Option String := none
  time_range : String := "medium_term"
deriving DecidableEq, Repr

/-- Python truthiness of an optional list (`None` and `[]` are falsy). -/
def truthyOptList : Option (List α) → Bool
  | none => false
  | some l => ¬ l.isEmpty

/-- Function `get_spotify_recommendations` with `return_meta=True`.  Returns
`(tracks, meta)` — `meta = none` models the empty dict returned on a
falsy token — together with the upstream call counters. -/
def get_spotify_recommendations (gw : Gateway) (shuffle : List Track → List Track)
    (token : String) (inp : SynthInput) :
    (List TrackOut × Option Meta) × SynthCalls :=
  if ¬ truthyStr token then
    (([], none), {})
  else
    -- the body of the `try`: chosen branch, its raw tracks (after
    -- shuffle + truncate), its seeds_used, and the calls it made;
    -- `.error calls` is an exception escaping to the `except` handler
    let attempt : Except SynthCalls (List Track × SeedsUsed × SynthCalls) :=
      if inp.genres.getD [] ≠ [] then
        let gs := inp.genres.getD []
        .ok (search_tracks_by_genres gw gs inp.limit, { seed_genres := some gs }, {})
      else if truthyOptList inp.seed_artists then
        let sa := inp.seed_artists.getD []
        .ok (tracks_from_artists gw sa, { seed_artists := some sa }, {})
      else if truthyOptList inp.seed_tracks then
        let st := inp.seed_tracks.getD []
        .ok (related_tracks gw st, { seed_tracks := some st }, {})
      else
        match gw.topArtists inp.time_range with
        | .error _ => .error { topArtistCalls := 1 }
        | .ok top_artists =>
            let user_genres := (top_artists.map Artist.genres).flatten
            let unique_genres := user_genres.eraseDups.take MAX_SEEDS
            if unique_genres ≠ [] then
              .ok (search_tracks_by_genres gw unique_genres inp.limit,
                   { seed_genres := some unique_genres }, { topArtistCalls := 1 })
            else
              match gw.topTracks inp.time_range with
              | .error _ => .error { topArtistCalls := 1, topTrackCalls := 1 }
              | .ok top_tracks =>
                  .ok (top_tracks, { source_top_tracks := true },
                       { topArtistCalls := 1, topTrackCalls := 1 })
    match attempt with
    | .ok (tracks, seeds_used, calls) =>
        let tracks := (shuffle tracks).take inp.limit
        ((projectTracks inp.min_popularity tracks,
          some { market := inp.market_override, fallback := "custom_algorithm",
                 seedsUsed := seeds_used }), calls)
    | .error calls =>
        -- `except`: tracks = [], fallback flag set, seeds_used rebuilt
        -- from whichever explicit seed inputs are truthy
        let seeds_used : SeedsUsed :=
          { seed_artists := if truthyOptList inp.seed_artists then inp.seed_artists else none
            seed_tracks := if truthyOptList inp.seed_tracks then inp.seed_tracks else none
            seed_genres := if truthyOptList inp.genres then inp.genres else none }
        ((projectTracks inp.min_popularity [],
          some { market := inp.market_override, fallback := "fallback_used",
                 seedsUsed := seeds_used }), calls)

/-- Python `Counter(user_genres).most_common(n)` keys: distinct genres in
first-occurrence order, stably ordered by descending multiplicity. -/
def mostCommonGenres (gs : List String) (n : Nat) : List String :=
  ((gs.eraseDups).mergeSort (fun a b => gs.count b ≤ gs.count a)).take n

/-- Gregorian leap-year rule (as `datetime.strptime` validates days). -/
def isLeapYear (y : Nat) : Bool := (y % 4 = 0 && y % 100 ≠ 0) || y % 400 = 0

/-- Days in a month, for date validation. -/
def daysInMonth (y m : Nat) : Nat :=
  if m = 2 then (if isLeapYear y then 29 else 28)
  else if m = 4 ∨ m = 6 ∨ m = 9 ∨ m = 11 then 30
  else 31

/-- Split a character list at each dash. -/
def splitOnDash : List Char → List (List Char)
  | [] => [[]]
  | c :: rest =>
      let r := splitOnDash rest
      if c = '-' then [] :: r
      else
        match r with
        | [] => [[c]]
        | g :: gs => (c :: g) :: gs

/-- Parse a non-empty group of decimal digits. -/
def digitsToNat? (cs : List Char) : Option Nat :=
  if cs.isEmpty then none
  else cs.foldl (fun acc? c =>
    match acc? with
    | none => none
    | some acc => if c.isDigit then some (acc * 10 + (c.toNat - 48)) else none) (some 0)

/-- Python `datetime.strptime(s, "%Y-%m-%d")` succeeding: three dash-separated
digit groups — `%Y` exactly 4 digits with year at least `MINYEAR = 1`,
`%m`/`%d` one or two digits — forming a real calendar date. -/
def validDate (s : String) : Bool :=
  match splitOnDash s.data with
  | [ys, ms, ds] =>
      match digitsToNat? ys, digitsToNat? ms, digitsToNat? ds with
      | some y, some m, some d =>
          decide (ys.length = 4 ∧ 1 ≤ y ∧ ms.length ≤ 2 ∧ ds.length ≤ 2 ∧
            1 ≤ m ∧ m ≤ 12 ∧ 1 ≤ d ∧ d ≤ daysInMonth y m)
      | _, _, _ => false
  | _ => false

/-- How Python renders an `Optional[int]` inside an f-string. -/
def pyStrOptNat : Option Nat → String
  | none => "None"
  | some n => toString n

/-- Function `build_cache_key` from `app/routes/recommendations.py`. -/
def build_cache_key (user_id seed_type : String) (seeds : List String) (market : String)
    (min_popularity : Option Nat) : String :=
  "recommendations:" ++ user_id ++ ":" ++ seed_type ++ ":" ++ String.intercalate "," seeds
    ++ ":" ++ market ++ ":" ++ pyStrOptNat min_popularity

/-- Route-level error surfaced by `recommendations_base`. -/
inductive RouteErr where
  /-- the 422 raised when `released_after` fails the format check -/
  | invalidDateFormat
deriving DecidableEq, Repr

/-- Route `GET /api/discover/recommendations` (`recommendations_base`) after
authentication: derive genre seeds from the caller's top artists (errors
swallowed), fall back to `DEFAULT_GENRES`, format-check `released_after`,
then serve from cache or synthesize.  Returns the response together with
the cache key it used. -/
def recommendations_base (gw : Gateway) (shuffle : List Track → List Track)
    (user_id token market : String) (min_popularity : Option Nat)
    (released_after : Option String) (limit : Nat) (time_range : String) :
    Except RouteErr (RouteResponse × String) :=
  let seeds0 : List String :=
    match gw.topArtists time_range with
    | .error _ => []
    | .ok top_artists =>
        let user_genres := (top_artists.map Artist.genres).flatten
        if user_genres ≠ [] then mostCommonGenres user_genres MAX_SEEDS else []
  -- Fallback to default genres if no user genres found
  let seeds := if seeds0 = [] then DEFAULT_GENRES.take MAX_SEEDS else seeds0
  if (released_after.map validDate) = some false then
    .error .invalidDateFormat
  else
    let cache_key := build_cache_key user_id "genre" seeds market min_popularity
    match gw.cacheGet cache_key with
    | some cached => .ok (cached, cache_key)
    | none =>
        let r := get_spotify_recommendations gw shuffle token
          { limit := limit, genres := some seeds, min_popularity := min_popularity,
            market_override := some market, time_range := time_range }
        .ok ({ results := r.1.1, meta := r.1.2 }, cache_key)

/-- A sample raw track released before 2023, returned by the "pop" genre
search of `gwDemo`. -/
def trackOld : Track :=
  { id := "t-old", name := "Old Song",
    artists := [{ id := "ar1", name := "Artist One", genres := [] }],
    album := { name := "Old Album", release_date := "2022-06-10" },
    popularity := some 50, preview_url := none }

/-- A concrete gateway for closed evaluations: the top-artists fetch
raises, the "pop" genre search returns one pre-2023 track, every other
upstream call is empty, and the cache always misses. -/
def gwDemo : Gateway where
  searchTracksByGenre := fun g => if g = "pop" then .ok [trackOld] else .ok []
  artistTopTracks := fun _ => .ok []
  trackLookup := fun _ => .error ()
  topArtists := fun _ => .error ()
  topTracks := fun _ => .ok []
  cacheGet := fun _ => none

/-- The genre tags the base route extracts from the caller's top artists
(empty both when the fetch raises and when no artist carries tags). -/
def routeTopGenres (gw : Gateway) (tr : String) : List String :=
  match gw.topArtists tr with
  | .error _ => []
  | .ok arts => (arts.map Artist.genres).flatten

/-- The synthesis call the base route makes after falling back to the
default genre list. -/
def defaultGenreSynth (gw : Gateway) (shuffle : List Track → List Track) (token : String)
    (limit : Nat) (mp : Option Nat) (market tr : String) :
    (List TrackOut × Option Meta) × SynthCalls :=
  get_spotify_recommendations gw shuffle token
    { limit := limit, genres := some (DEFAULT_GENRES.take MAX_SEEDS), min_popularity := mp,
      market_override := some market, time_range := tr }

/-- Once a breaker has left the closed state, its failure counter has
reached the threshold (the counter is only reset on the half-open →
closed transition). -/
def BreakerInv (b : CircuitBreaker) : Prop :=
  (b.state = .opened ∨ b.state = .halfOpen) → b.failure_threshold ≤ b.failure_count

/-! ## Breaker lemmas -/

lemma breakerInv_init (th rt : Nat) : BreakerInv (CircuitBreaker.init th rt) := by
  intro h
  rcases h with h | h <;> simp [CircuitBreaker.init] at h

lemma breakerInv_step (b : CircuitBreaker) (ev : BreakerEvent) (hb : BreakerInv b) :
    BreakerInv (b.step ev) := by
  cases ev with
  | success =>
      simp only [CircuitBreaker.step, CircuitBreaker.record_success]
      split
      · rintro (h | h) <;> simp at h
      · exact hb
  | failure now =>
      simp only [CircuitBreaker.step, CircuitBreaker.record_failure]
      split
      · next h =>
          intro _
          have h1 := h.1
          dsimp only at h1 ⊢
          omega
      · intro hs
        dsimp only at hs ⊢
        have := hb hs
        omega
  | checkOpen now =>
      simp only [CircuitBreaker.step, CircuitBreaker.is_open]
      cases hst : b.state with
      | closed => simp only [hst]; exact hb
      | opened =>
          simp only [hst]
          split
          · intro _
            have := hb (Or.inl hst)
            simpa using this
          · exact hb
      | halfOpen => simp only [hst]; exact hb

lemma breakerInv_run (b : CircuitBreaker) (evs : List BreakerEvent) (hb : BreakerInv b) :
    BreakerInv (b.run evs) := by
  induction evs generalizing b with
  | nil => exact hb
  | cons e es ih =>
      simp only [CircuitBreaker.run, List.foldl_cons] at *
      exact ih _ (breakerInv_step _ _ hb)

lemma breakerReachable_inv (b : CircuitBreaker) (h : BreakerReachable b) : BreakerInv b := by
  obtain ⟨th, rt, evs, rfl⟩ := h
  exact breakerInv_run _ _ (breakerInv_init th rt)

/-- C6: in the half-open state of a reachable breaker, `record_success`
closes the breaker and resets `failure_count` to 0, and `record_failure`
reopens it with `last_failure_time` restamped to the failure instant;
`record_success` invoked while the breaker is closed or open leaves the
whole breaker unchanged. -/
theorem C6_half_open_transitions (b : CircuitBreaker) (hreach : BreakerReachable b) :
    (b.state = .halfOpen →
      (b.record_success.state = .closed ∧ b.record_success.failure_count = 0) ∧
      (∀ now, (b.record_failure now).state = .opened ∧
        (b.record_failure now).last_failure_time = some now)) ∧
    ((b.state = .closed ∨ b.state = .opened) → b.record_success = b) := by
  have hinv := breakerReachable_inv b hreach
  constructor
  · intro hst
    refine ⟨⟨by simp [CircuitBreaker.record_success, hst], by
      simp [CircuitBreaker.record_success, hst]⟩, ?_⟩
    intro now
    have hcnt : b.failure_threshold ≤ b.failure_count := hinv (Or.inr hst)
    have hcond : b.failure_count + 1 ≥ b.failure_threshold ∧ b.state ≠ BreakerState.opened := by
      constructor
      · omega
      · simp [hst]
    simp [CircuitBreaker.record_failure, hcond]
  · intro hst
    have hne : ¬ b.state = .halfOpen := by
      rcases hst with h | h <;> simp [h]
    simp [CircuitBreaker.record_success, hne]

/-- Witness for C6 at a concrete reachable half-open breaker
(threshold 1, recovery timeout 60; one failure at t = 0, probed at
t = 100). -/
theorem C6_half_open_transitions_witness :
    ((CircuitBreaker.init 1 60).run
        [BreakerEvent.failure 0, BreakerEvent.checkOpen 100]).record_success.state =
      BreakerState.closed ∧
    ((CircuitBreaker.init 1 60).run
        [BreakerEvent.failure 0, BreakerEvent.checkOpen 100]).record_success.failure_count = 0 := by
  exact (C6_half_open_transitions _ ⟨1, 60, _, rfl⟩).1 (by decide) |>.1

/-- C2 (divergence witness): a breaker opened by 5 failures at t = 0 with
`recovery_timeout = 60` still rejects a call at t = 86460, one day and a
minute later, because `timedelta.seconds` drops whole days — even though
the elapsed time exceeds the recovery timeout, no transition to half-open
happens. -/
theorem C2_recovery_timeout_day_wrap :
    ((CircuitBreaker.init 5 60).run (List.replicate 5 (BreakerEvent.failure 0))).state =
        BreakerState.opened ∧
    ((CircuitBreaker.init 5 60).run
        (List.replicate 5 (BreakerEvent.failure 0))).last_failure_time = some 0 ∧
    60 < 86460 - 0 ∧
    (((CircuitBreaker.init 5 60).run
        (List.replicate 5 (BreakerEvent.failure 0))).is_open 86460).1 = true ∧
    ((((CircuitBreaker.init 5 60).run
        (List.replicate 5 (BreakerEvent.failure 0))).is_open 86460).2).state =
      BreakerState.opened := by decide

/-! ## Retry lemmas -/

lemma retryFrom_ok (attempts : Nat → Attempt ε α) (k r : Nat) (a : α)
    (h : attempts k = .ok a) : retryFrom attempts k r = (.ok a, 1) := by
  unfold retryFrom
  rw [h]

lemma retryFrom_fatal_eq (attempts : Nat → Attempt ε α) (k r : Nat) (e : ε)
    (h : attempts k = .fatal e) : retryFrom attempts k r = (.error e, 1) := by
  unfold retryFrom
  rw [h]

lemma retryFrom_retryable_zero (attempts : Nat → Attempt ε α) (k : Nat) (e : ε)
    (h : attempts k = .retryable e) : retryFrom attempts k 0 = (.error e, 1) := by
  unfold retryFrom
  rw [h]

lemma retryFrom_retryable_succ (attempts : Nat → Attempt ε α) (k r : Nat) (e : ε)
    (h : attempts k = .retryable e) :
    retryFrom attempts k (r + 1) =
      ((retryFrom attempts (k + 1) r).1, (retryFrom attempts (k + 1) r).2 + 1) := by
  conv_lhs => unfold retryFrom
  rw [h]

lemma retryFrom_calls_le (attempts : Nat → Attempt ε α) (k r : Nat) :
    (retryFrom attempts k r).2 ≤ r + 1 := by
  induction r generalizing k with
  | zero =>
      cases h : attempts k with
      | ok a => simp [retryFrom_ok attempts k 0 a h]
      | fatal e => simp [retryFrom_fatal_eq attempts k 0 e h]
      | retryable e => simp [retryFrom_retryable_zero attempts k e h]
  | succ r ih =>
      cases h : attempts k with
      | ok a => simp [retryFrom_ok attempts k (r + 1) a h]
      | fatal e => simp [retryFrom_fatal_eq attempts k (r + 1) e h]
      | retryable e =>
          rw [retryFrom_retryable_succ attempts k r e h]
          have := ih (k + 1)
          simpa using Nat.add_le_add_right this 1

lemma retryFrom_all_retryable (attempts : Nat → Attempt ε α) (es : Nat → ε) (k r : Nat)
    (h : ∀ i, i ≤ r → attempts (k + i) = .retryable (es (k + i))) :
    retryFrom attempts k r = (.error (es (k + r)), r + 1) := by
  induction r generalizing k with
  | zero =>
      have h0 := h 0 (Nat.le_refl 0)
      rw [Nat.add_zero] at h0
      rw [retryFrom_retryable_zero attempts k _ h0, Nat.add_zero]
  | succ r ih =>
      have h0 := h 0 (Nat.zero_le _)
      rw [Nat.add_zero] at h0
      have hrec := ih (k + 1) (fun i hi => by
        have hh := h (i + 1) (by omega)
        rwa [show k + (i + 1) = k + 1 + i by omega] at hh)
      rw [show k + 1 + r = k + (r + 1) by omega] at hrec
      rw [retryFrom_retryable_succ attempts k r _ h0, hrec]

lemma retryFrom_fatal (attempts : Nat → Attempt ε α) (e : ε) (k j r : Nat)
    (hjr : j ≤ r) (hf : attempts (k + j) = .fatal e)
    (hr : ∀ i, i < j → ∃ e2, attempts (k + i) = .retryable e2) :
    retryFrom attempts k r = (.error e, j + 1) := by
  induction j generalizing k r with
  | zero =>
      rw [Nat.add_zero] at hf
      rw [retryFrom_fatal_eq attempts k r e hf]
  | succ j ih =>
      obtain ⟨e0, h0⟩ := hr 0 (by omega)
      rw [Nat.add_zero] at h0
      obtain ⟨r2, rfl⟩ : ∃ r2, r = r2 + 1 := ⟨r - 1, by omega⟩
      have hrec := ih (k + 1) r2 (by omega)
        (by rw [show k + 1 + j = k + (j + 1) by omega]; exact hf)
        (fun i hi => by
          obtain ⟨e2, h2⟩ := hr (i + 1) (by omega)
          exact ⟨e2, by rwa [show k + (i + 1) = k + 1 + i by omega] at h2⟩)
      rw [retryFrom_retryable_succ attempts k r2 e0 h0, hrec]

/-- C5: with `max_retries = N` the wrapped function runs at most `N + 1`
times; when every attempt raises a retryable exception the exception of
the final attempt is re-raised unchanged after exactly `N + 1`
invocations; an attempt raising a non-retryable exception propagates it
immediately, with no further invocations. -/
theorem C5_retry_executor_semantics {ε α : Type} (attempts : Nat → Attempt ε α) (N : Nat) :
    (retry_with_exponential_backoff attempts N).2 ≤ N + 1 ∧
    (∀ es : Nat → ε, (∀ k, k ≤ N → attempts k = .retryable (es k)) →
      retry_with_exponential_backoff attempts N = (.error (es N), N + 1)) ∧
    (∀ (e : ε) (j : Nat), j ≤ N → attempts j = .fatal e →
      (∀ i, i < j → ∃ e2, attempts i = .retryable e2) →
      retry_with_exponential_backoff attempts N = (.error e, j + 1)) := by
  refine ⟨retryFrom_calls_le attempts 0 N, ?_, ?_⟩
  · intro es h
    have hh := retryFrom_all_retryable attempts es 0 N (fun i hi => by simpa using h i hi)
    simpa [retry_with_exponential_backoff] using hh
  · intro e j hj hf hr
    have hh := retryFrom_fatal attempts e 0 j N hj (by simpa using hf)
      (fun i hi => by simpa using hr i hi)
    simpa [retry_with_exponential_backoff] using hh

/-- Witness for C5: three all-retryable attempts under `max_retries = 2`
re-raise the last exception after 3 calls, and a non-retryable exception
on the second attempt stops the sequence at 2 calls. -/
theorem C5_retry_executor_semantics_witness :
    retry_with_exponential_backoff (α := Nat) (fun _ => Attempt.retryable (7 : Nat)) 2 =
      (Except.error 7, 3) ∧
    retry_with_exponential_backoff (α := Nat)
        (fun k => if k = 0 then Attempt.retryable (5 : Nat) else Attempt.fatal 9) 2 =
      (Except.error 9, 2) := by
  constructor
  · exact (C5_retry_executor_semantics _ 2).2.1 (fun _ => 7) (fun k _ => rfl)
  · exact (C5_retry_executor_semantics _ 2).2.2 9 1 (by omega) rfl
      (fun i hi => ⟨5, by have h0 : i = 0 := by omega
                          subst h0; rfl⟩)

/-! ## Gateway-call lemmas -/

lemma is_open_snd_failure_count (b : CircuitBreaker) (now : Nat) :
    ((b.is_open now).2).failure_count = b.failure_count := by
  unfold CircuitBreaker.is_open
  cases b.state <;> simp only
  split <;> rfl

lemma record_success_count_le (b : CircuitBreaker) :
    b.record_success.failure_count ≤ b.failure_count := by
  unfold CircuitBreaker.record_success
  split <;> simp

lemma record_failure_count (x : CircuitBreaker) (now : Nat) :
    (x.record_failure now).failure_count = x.failure_count + 1 := by
  unfold CircuitBreaker.record_failure
  dsimp only
  split <;> rfl

lemma spotify_api_call_open {ε α : Type} (b : CircuitBreaker) (now : Nat)
    (attempts : Nat → Attempt ε α) (N : Nat) (h : (b.is_open now).1 = true) :
    spotify_api_call b now attempts N =
      { result := .error .circuitOpen, breaker := (b.is_open now).2, attemptsMade := 0,
        failuresRecorded := 0 } := by
  unfold spotify_api_call
  dsimp only
  rw [h]
  simp

lemma spotify_api_call_closed_ok {ε α : Type} (b : CircuitBreaker) (now : Nat)
    (attempts : Nat → Attempt ε α) (N : Nat) (a : α) (c : Nat)
    (hio : (b.is_open now).1 = false)
    (hr : retry_with_exponential_backoff attempts N = (.ok a, c)) :
    spotify_api_call b now attempts N =
      { result := .ok a, breaker := (b.is_open now).2.record_success, attemptsMade := c,
        failuresRecorded := 0 } := by
  unfold spotify_api_call
  dsimp only
  rw [hio, hr]
  simp

lemma spotify_api_call_closed_error {ε α : Type} (b : CircuitBreaker) (now : Nat)
    (attempts : Nat → Attempt ε α) (N : Nat) (e : ε) (c : Nat)
    (hio : (b.is_open now).1 = false)
    (hr : retry_with_exponential_backoff attempts N = (.error e, c)) :
    spotify_api_call b now attempts N =
      { result := .error (.upstream e), breaker := (b.is_open now).2.record_failure now,
        attemptsMade := c, failuresRecorded := 1 } := by
  unfold spotify_api_call
  dsimp only
  rw [hio, hr]
  simp

/-- C4: one gateway call records at most one breaker failure regardless of
how many attempts its retry sequence makes; the breaker records zero
failures when the retry sequence returns a result, and exactly one —
raising `failure_count` by exactly one — when the sequence it wrapped
raises after running. -/
theorem C4_breaker_once_per_retry_sequence {ε α : Type} (b : CircuitBreaker) (now : Nat)
    (attempts : Nat → Attempt ε α) (N : Nat) :
    (spotify_api_call b now attempts N).failuresRecorded ≤ 1 ∧
    (spotify_api_call b now attempts N).breaker.failure_count ≤ b.failure_count + 1 ∧
    (∀ a, (retry_with_exponential_backoff attempts N).1 = .ok a →
      (spotify_api_call b now attempts N).failuresRecorded = 0) ∧
    ((b.is_open now).1 = false →
      ∀ e, (retry_with_exponential_backoff attempts N).1 = .error e →
        (spotify_api_call b now attempts N).failuresRecorded = 1 ∧
        (spotify_api_call b now attempts N).breaker.failure_count = b.failure_count + 1) := by
  have hcnt := is_open_snd_failure_count b now
  cases hio : (b.is_open now).1 with
  | true =>
      rw [spotify_api_call_open b now attempts N hio]
      refine ⟨by simp, by simp [hcnt], fun a _ => rfl, ?_⟩
      intro hfalse
      exact absurd hfalse (by simp [hio])
  | false =>
      rcases hres : retry_with_exponential_backoff attempts N with ⟨res, c⟩
      cases res with
      | ok a =>
          rw [spotify_api_call_closed_ok b now attempts N a c hio hres]
          have hle := record_success_count_le (b.is_open now).2
          refine ⟨by simp, by dsimp only; omega, fun a2 _ => rfl, ?_⟩
          intro _ e he
          simp at he
      | error e =>
          rw [spotify_api_call_closed_error b now attempts N e c hio hres]
          have hrf := record_failure_count (b.is_open now).2 now
          refine ⟨by simp, by dsimp only; omega, ?_, ?_⟩
          · intro a ha
            simp at ha
          · intro _ e2 _
            exact ⟨rfl, by dsimp only; omega⟩

/-- Witness for C4: a closed breaker records no failure when the first
attempt succeeds, and exactly one failure when all four attempts of an
exhausted sequence fail. -/
theorem C4_breaker_once_per_retry_sequence_witness :
    (spotify_api_call (ε := Unit) (CircuitBreaker.init 5 60) 0
        (fun _ => Attempt.ok (42 : Nat)) 3).failuresRecorded = 0 ∧
    (spotify_api_call (α := Nat) (CircuitBreaker.init 5 60) 0
        (fun _ => Attempt.retryable ()) 3).failuresRecorded = 1 ∧
    (spotify_api_call (α := Nat) (CircuitBreaker.init 5 60) 0
        (fun _ => Attempt.retryable ()) 3).breaker.failure_count = 1 := by
  refine ⟨(C4_breaker_once_per_retry_sequence _ 0 _ 3).2.2.1 42 rfl, ?_⟩
  have h := (C4_breaker_once_per_retry_sequence (α := Nat) (CircuitBreaker.init 5 60) 0
    (fun _ => Attempt.retryable ()) 3).2.2.2 (by decide) () rfl
  exact ⟨h.1, h.2⟩

/-! ## Vault lemmas -/

lemma findRow_map_same_id (t : TokenTable) (key : String) (f : TokenRow → TokenRow)
    (hid : ∀ r, (f r).id = r.id) :
    findRow (t.map f) key = (findRow t key).map f := by
  unfold findRow
  induction t with
  | nil => rfl
  | cons r rs ih =>
      by_cases h : r.id = key
      · simp [List.find?_cons, hid, h]
      · simp [List.find?_cons, hid, h, ih]

lemma keysUnique_map (t : TokenTable) (f : TokenRow → TokenRow)
    (hid : ∀ r, (f r).id = r.id) (hu : KeysUnique t) : KeysUnique (t.map f) := by
  unfold KeysUnique at *
  rw [List.map_map, show (TokenRow.id ∘ f) = TokenRow.id from funext hid]
  exact hu

lemma keysUnique_append_fresh (t : TokenTable) (row : TokenRow)
    (hu : KeysUnique t) (hnone : findRow t row.id = none) :
    KeysUnique (t ++ [row]) := by
  unfold KeysUnique at *
  rw [List.map_append]
  refine List.Nodup.append hu (by simp) ?_
  intro y hy hy2
  simp only [List.map_cons, List.map_nil, List.mem_singleton] at hy2
  subst hy2
  obtain ⟨s, hs, hsy⟩ := List.mem_map.mp hy
  unfold findRow at hnone
  have := List.find?_eq_none.mp hnone s hs
  simp only [decide_eq_true_eq] at this
  exact this hsy

lemma filter_id_length_le (t : TokenTable) (x : String) (hu : KeysUnique t) :
    (t.filter (fun r => r.id = x)).length ≤ 1 := by
  induction t with
  | nil => simp
  | cons r rs ih =>
      simp only [KeysUnique, List.map_cons, List.nodup_cons] at hu
      by_cases hx : r.id = x
      · have hempty : rs.filter (fun s => s.id = x) = [] := by
          rw [List.filter_eq_nil_iff]
          intro s hs
          simp only [decide_eq_true_eq]
          intro hsx
          exact hu.1 (List.mem_map.mpr ⟨s, hs, by rw [hsx, hx]⟩)
        simp [List.filter_cons, hx, hempty]
      · simp only [List.filter_cons, hx, decide_eq_true_eq, if_false]
        exact ih hu.2

lemma findRow_some_id (t : TokenTable) (x : String) (row : TokenRow)
    (h : findRow t x = some row) : row.id = x := by
  unfold findRow at h
  have := List.find?_some h
  simpa using this

/-- C10: user-scoped and session-scoped credentials live in one table
keyed by the bare identifier: under the primary-key discipline at most one
row holds any id `x`; both put helpers keep the key set duplicate-free;
`put_session_tokens` with session id `x` overwrites in place whatever row
is stored under `x` (likewise `put_user_tokens`), regardless of which kind
created it; and `get_user_tokens` and `get_session_tokens` are the same
bare-id lookup. -/
theorem C10_single_token_table_keyed_by_bare_id (t : TokenTable) (x uid a r : String)
    (e : Nat) (hu : KeysUnique t) :
    (t.filter (fun row => row.id = x)).length ≤ 1 ∧
    KeysUnique (put_session_tokens t x uid a r e) ∧
    KeysUnique (put_user_tokens t x a r e) ∧
    (∀ row, findRow t x = some row →
      findRow (put_session_tokens t x uid a r e) x =
        some { row with user_id := uid, access_token := a, refresh_token := r,
                        expires_at := e } ∧
      findRow (put_user_tokens t x a r e) x =
        some { row with access_token := a, refresh_token := r, expires_at := e }) ∧
    get_user_tokens t x = get_session_tokens t x := by
  refine ⟨filter_id_length_le t x hu, ?_, ?_, ?_, rfl⟩
  · unfold put_session_tokens
    cases hfind : findRow t x with
    | some row =>
        exact keysUnique_map t _ (fun s => by split <;> rfl) hu
    | none => exact keysUnique_append_fresh t _ hu hfind
  · unfold put_user_tokens
    cases hfind : findRow t x with
    | some row =>
        exact keysUnique_map t _ (fun s => by split <;> rfl) hu
    | none => exact keysUnique_append_fresh t _ hu hfind
  · intro row hfind
    have hid := findRow_some_id t x row hfind
    constructor
    · unfold put_session_tokens
      rw [hfind]
      rw [findRow_map_same_id t x _ (fun s => by split <;> rfl), hfind]
      simp [hid]
    · unfold put_user_tokens
      rw [hfind]
      rw [findRow_map_same_id t x _ (fun s => by split <;> rfl), hfind]
      simp [hid]

/-- Witness for C10 at a one-row table holding a user-kind record under id
"x": a session-scoped put under the same id overwrites that record in
place (its `type` column still reads "user_tokens"). -/
theorem C10_single_token_table_keyed_by_bare_id_witness :
    findRow (put_session_tokens
        [{ id := "x", user_id := "u", access_token := "a0", refresh_token := "r0",
           expires_at := 0, type := "user_tokens" }] "x" "u2" "a1" "r1" 5) "x" =
      some { id := "x", user_id := "u2", access_token := "a1", refresh_token := "r1",
             expires_at := 5, type := "user_tokens" } := by
  have h := (C10_single_token_table_keyed_by_bare_id
    [{ id := "x", user_id := "u", access_token := "a0", refresh_token := "r0",
       expires_at := 0, type := "user_tokens" }] "x" "u2" "a1" "r1" 5
    (by simp [KeysUnique])).2.2.2.1
  exact (h _ rfl).1

/-! ## Route lemmas and concrete evaluation data -/

lemma seeds_ne_nil (s : List String) :
    (if s = [] then DEFAULT_GENRES.take MAX_SEEDS else s) ≠ [] := by
  split
  · decide
  · assumption

lemma synth_genre_branch_time_range (gw : Gateway) (shuffle : List Track → List Track)
    (token : String) (limit : Nat) (mp : Option Nat) (market : String) (s : List String)
    (t1 t2 : String) (hs : s ≠ []) :
    get_spotify_recommendations gw shuffle token
      { limit := limit, genres := some s, min_popularity := mp,
        market_override := some market, time_range := t1 } =
    get_spotify_recommendations gw shuffle token
      { limit := limit, genres := some s, min_popularity := mp,
        market_override := some market, time_range := t2 } := by
  unfold get_spotify_recommendations
  simp [hs]

/-- C9 counterexample: two requests whose seed lists are permutations of
each other (all other inputs equal) do NOT hash to the same cache key —
the seeds enter the key in their given order, unsorted. -/
theorem C9_cache_key_not_order_insensitive :
    build_cache_key "u" "genre" ["a", "b"] "GB" none ≠
      build_cache_key "u" "genre" ["b", "a"] "GB" none := by decide

/-- C9 amended: `build_cache_key` fingerprints
(user, seed kind, seeds in given order, market, min_popularity) only —
`time_range` is not part of the key, so two base-route requests that
differ only in `time_range` behave identically (same key, same response)
whenever the upstream top-artists fetch answers both the same way. -/
theorem C9_cache_key_amended (gw : Gateway) (shuffle : List Track → List Track)
    (user token market : String) (mp : Option Nat) (ra : Option String) (limit : Nat)
    (t1 t2 : String) (h : gw.topArtists t1 = gw.topArtists t2) :
    recommendations_base gw shuffle user token market mp ra limit t1 =
      recommendations_base gw shuffle user token market mp ra limit t2 := by
  unfold recommendations_base
  rw [h]
  dsimp only
  rw [synth_genre_branch_time_range gw shuffle token limit mp market _ t1 t2
    (seeds_ne_nil _)]

/-- Witness for C9 amended: with a concrete gateway, the base route gives
the same result for `short_term` and `long_term`. -/
theorem C9_cache_key_amended_witness :
    recommendations_base gwDemo (fun l => l) "u" "tok" "GB" none none 10 "short_term" =
      recommendations_base gwDemo (fun l => l) "u" "tok" "GB" none none 10 "long_term" :=
  C9_cache_key_amended gwDemo (fun l => l) "u" "tok" "GB" none none 10
    "short_term" "long_term" rfl

/-- C1: when the caller's top artists yield no genre tags (and in
particular when the top-artists fetch raises — both leave
`routeTopGenres` empty), the base route swallows the failure, uses the
fixed default genre list, and proceeds exactly as the explicit-genre
branch: the response is the branch-1 synthesis over `DEFAULT_GENRES`, the
synthesizer makes no top-artist or top-track calls, and its metadata
records the default genres as the seed genres. -/
theorem C1_default_genre_fallback (gw : Gateway) (shuffle : List Track → List Track)
    (user token market : String) (mp : Option Nat) (ra : Option String) (limit : Nat)
    (tr : String) (hng : routeTopGenres gw tr = [])
    (hra : (ra.map validDate) ≠ some false)
    (hcache : gw.cacheGet
      (build_cache_key user "genre" (DEFAULT_GENRES.take MAX_SEEDS) market mp) = none) :
    recommendations_base gw shuffle user token market mp ra limit tr =
      .ok ({ results := (defaultGenreSynth gw shuffle token limit mp market tr).1.1,
             meta := (defaultGenreSynth gw shuffle token limit mp market tr).1.2 },
           build_cache_key user "genre" (DEFAULT_GENRES.take MAX_SEEDS) market mp) ∧
    (defaultGenreSynth gw shuffle token limit mp market tr).2 = {} ∧
    (truthyStr token = true →
      (defaultGenreSynth gw shuffle token limit mp market tr).1.2 =
        some { market := some market, fallback := "custom_algorithm",
               seedsUsed := { seed_genres := some (DEFAULT_GENRES.take MAX_SEEDS) } }) := by
  refine ⟨?_, ?_, ?_⟩
  · unfold recommendations_base
    unfold routeTopGenres at hng
    rcases htop : gw.topArtists tr with e | arts
    · dsimp only
      simp [hra, hcache, defaultGenreSynth]
    · rw [htop] at hng
      dsimp only at hng
      dsimp only
      simp [hng, hra, hcache, defaultGenreSynth]
  · unfold defaultGenreSynth get_spotify_recommendations
    by_cases ht : truthyStr token
    · simp [ht, MAX_SEEDS, DEFAULT_GENRES]
    · simp [ht]
  · intro ht
    unfold defaultGenreSynth get_spotify_recommendations
    simp [ht, MAX_SEEDS, DEFAULT_GENRES]

/-- Witness for C1 with a concrete gateway whose top-artists fetch raises:
the base route answers with the default-genre branch-1 synthesis. -/
theorem C1_default_genre_fallback_witness :
    recommendations_base gwDemo (fun l => l) "u3" "tok" "GB" none none 10 "medium_term" =
      .ok ({ results := (defaultGenreSynth gwDemo (fun l => l) "tok" 10 none
                          "GB" "medium_term").1.1,
             meta := (defaultGenreSynth gwDemo (fun l => l) "tok" 10 none
                          "GB" "medium_term").1.2 },
           build_cache_key "u3" "genre" (DEFAULT_GENRES.take MAX_SEEDS) "GB" none) :=
  (C1_default_genre_fallback gwDemo (fun l => l) "u3" "tok" "GB" none none 10
    "medium_term" rfl (by simp) rfl).1

/-! ## Token-resolution lemmas -/

lemma truthyOpt_some (s : String) : truthyOpt (some s) = truthyStr s := rfl

lemma truthyOpt_none : truthyOpt none = false := rfl

/-- C3 counterexample: the tracks-route resolver consults the vault even
though the inbound JWT carries an embedded token, and the vault token —
not the embedded one — wins: one session lookup happens and the resolved
token is the decrypted vault record. -/
theorem C3_tracks_route_prefers_vault_over_embedded :
    resolve_user_and_token "demo"
        (fun c => if c = "enc_a" then some "vault_tok" else none)
        [{ id := "s1", user_id := "u1", access_token := "enc_a", refresh_token := "enc_r",
           expires_at := 9999, type := "session_tokens" }]
        (some { user_id := "u1", session_id := some "s1",
                spotify_access_token := some "embedded" }) =
      ("u1", some "vault_tok", ⟨1, 0, 0⟩) := by rfl

/-- C3 amended: the stated precedence holds for `get_current_user`
(embedded token short-circuits with no vault lookup and no refresh; an
unexpired decryptable session record is returned with no refresh; an
expired session record with a usable refresh token triggers exactly one
refresh whose new pair is persisted under the same session and subject),
but the tracks-route resolver inverts it: there the session vault is
consulted first and its token wins, the embedded token being only the
last resort. -/
theorem C3_token_resolution_precedence (dec : String → Option String)
    (enc : String → String) (refresh : String → Except Unit RefreshData) (now : Nat)
    (t : TokenTable) (payload : JwtPayload) :
    (truthyOpt payload.spotify_access_token = true →
      get_current_user dec enc refresh now t payload =
        (.ok (payload.spotify_access_token.getD "", t), ⟨0, 0, 0⟩)) ∧
    (∀ sid rec tok, truthyOpt payload.spotify_access_token = false →
      payload.session_id = some sid → truthyStr sid = true →
      get_session_tokens t sid = some rec →
      dec rec.access_token = some tok → truthyStr tok = true → now < rec.expires_at →
      get_current_user dec enc refresh now t payload = (.ok (tok, t), ⟨1, 0, 0⟩)) ∧
    (∀ sid rec rtok td, truthyOpt payload.spotify_access_token = false →
      payload.session_id = some sid → truthyStr sid = true →
      get_session_tokens t sid = some rec →
      rec.expires_at ≤ now →
      truthyStr rec.refresh_token = true → dec rec.refresh_token = some rtok →
      truthyStr rtok = true → refresh rtok = .ok td → truthyStr td.access_token = true →
      get_current_user dec enc refresh now t payload =
        (.ok (td.access_token,
          put_session_tokens t sid payload.user_id (enc td.access_token)
            (enc ((td.refresh_token.filter truthyStr).getD rtok)) (now + td.expires_in)),
         ⟨1, 0, 1⟩)) ∧
    (∀ DEMO sid rec tok, payload.session_id = some sid → truthyStr sid = true →
      get_session_tokens t sid = some rec →
      dec rec.access_token = some tok → truthyStr tok = true →
      (resolve_user_and_token DEMO dec t (some payload)).2 = (some tok, ⟨1, 0, 0⟩)) := by
  refine ⟨?_, ?_, ?_, ?_⟩
  · intro h1
    cases hs : payload.session_id <;>
      simp [get_current_user, h1, hs]
  · intro sid rec tok hemb hsid hsidt hrec hdec htok hexp
    have hnle : ¬ rec.expires_at ≤ now := by omega
    simp [get_current_user, vaultBranch, hemb, hsid, hsidt, hrec, hdec, htok,
      truthyOpt_some, hnle]
  · intro sid rec rtok td hemb hsid hsidt hrec hexp hrt hdrt hrtok href hta
    simp [get_current_user, vaultBranch, hemb, hsid, hsidt, hrec, hexp, hrt, hdrt,
      hrtok, href, hta, truthyOpt_some]
  · intro DEMO sid rec tok hsid hsidt hrec hdec htok
    simp [resolve_user_and_token, hsid, hsidt, hrec, hdec, truthyOpt_some, htok]

/-- Witness for C3 amended at a concrete expired session record: one
refresh call happens and the refreshed pair is written back under the
same session id and subject before the new access token is returned. -/
theorem C3_token_resolution_precedence_witness :
    get_current_user (fun c => if c = "er" then some "rt" else none) (fun s => "E" ++ s)
        (fun r => if r = "rt"
          then .ok { access_token := "new_acc", refresh_token := some "new_ref",
                     expires_in := 3600 }
          else .error ()) 100
        [{ id := "s1", user_id := "u1", access_token := "ea", refresh_token := "er",
           expires_at := 10, type := "session_tokens" }]
        { user_id := "u1", session_id := some "s1", spotify_access_token := none } =
      (.ok ("new_acc",
        put_session_tokens
          [{ id := "s1", user_id := "u1", access_token := "ea", refresh_token := "er",
             expires_at := 10, type := "session_tokens" }]
          "s1" "u1" "Enew_acc" "Enew_ref" 3700),
       ⟨1, 0, 1⟩) := by
  have h := (C3_token_resolution_precedence
    (fun c => if c = "er" then some "rt" else none) (fun s => "E" ++ s)
    (fun r => if r = "rt"
      then .ok { access_token := "new_acc", refresh_token := some "new_ref",
                 expires_in := 3600 }
      else .error ()) 100
    [{ id := "s1", user_id := "u1", access_token := "ea", refresh_token := "er",
       expires_at := 10, type := "session_tokens" }]
    { user_id := "u1", session_id := some "s1", spotify_access_token := none }).2.2.1
  exact h "s1" _ "rt" _ rfl rfl (by decide) rfl (by decide) (by decide) rfl (by decide)
    rfl (by decide)

/-- C8 counterexample: with an expired session record whose refresh call
fails, `get_current_user` raises the refresh error at once — the
user-scoped vault record holding a perfectly good token is never
consulted (no user lookup in the trace), so the failure is neither
swallowed nor followed by fall-through. -/
theorem C8_refresh_failure_propagates_concrete :
    get_current_user
        (fun c => if c = "er" then some "rt" else if c = "good" then some "g" else none)
        (fun s => "E" ++ s) (fun _ => .error ()) 100
        [{ id := "s1", user_id := "u1", access_token := "ea", refresh_token := "er",
           expires_at := 10, type := "session_tokens" },
         { id := "u1", user_id := "u1", access_token := "good", refresh_token := "",
           expires_at := 1000, type := "user_tokens" }]
        { user_id := "u1", session_id := some "s1", spotify_access_token := none } =
      (.error .refreshFailed, ⟨1, 0, 1⟩) := by rfl

/-- C8 amended: a failing refresh call inside `get_current_user` is not
swallowed — it escapes immediately with no fall-through to the remaining
precedence steps (the user-vault lookup count stays 0); only decryption
failures are treated as "no token", and only the exhausted chain (no
record anywhere) surfaces as unauthenticated. -/
theorem C8_refresh_failure_is_fatal (dec : String → Option String)
    (enc : String → String) (refresh : String → Except Unit RefreshData) (now : Nat)
    (t : TokenTable) (payload : JwtPayload) :
    (∀ sid rec rtok, truthyOpt payload.spotify_access_token = false →
      payload.session_id = some sid → truthyStr sid = true →
      get_session_tokens t sid = some rec →
      (¬ truthyOpt (dec rec.access_token) = true ∨ rec.expires_at ≤ now) →
      truthyStr rec.refresh_token = true → dec rec.refresh_token = some rtok →
      truthyStr rtok = true → refresh rtok = .error () →
      get_current_user dec enc refresh now t payload =
        (.error .refreshFailed, ⟨1, 0, 1⟩)) ∧
    (∀ sid rec, truthyOpt payload.spotify_access_token = false →
      payload.session_id = some sid → truthyStr sid = true →
      get_session_tokens t sid = some rec →
      dec rec.access_token = none → truthyStr rec.refresh_token = false →
      get_user_tokens t payload.user_id = none →
      get_current_user dec enc refresh now t payload =
        (.error .unauthenticated, ⟨1, 1, 0⟩)) := by
  constructor
  · intro sid rec rtok hemb hsid hsidt hrec hbad hrt hdrt hrtok href
    rcases hbad with hbad | hbad
    · simp only [Bool.not_eq_true] at hbad
      simp [get_current_user, vaultBranch, hemb, hsid, hsidt, hrec, hbad, hrt, hdrt,
        hrtok, href]
    · simp [get_current_user, vaultBranch, hemb, hsid, hsidt, hrec, hbad, hrt, hdrt,
        hrtok, href]
  · intro sid rec hemb hsid hsidt hrec hdecfail hnort huser
    simp [get_current_user, vaultBranch, hemb, hsid, hsidt, hrec, hdecfail, hnort,
      huser, truthyOpt_none]

/-- Witness for C8 amended at a concrete unexpired-but-undecryptable
session record whose refresh fails: the error escapes with zero user
lookups. -/
theorem C8_refresh_failure_is_fatal_witness :
    get_current_user (fun c => if c = "R" then some "r2" else none) (fun s => s)
        (fun _ => .error ()) 50
        [{ id := "s9", user_id := "u9", access_token := "A", refresh_token := "R",
           expires_at := 1000, type := "session_tokens" }]
        { user_id := "u9", session_id := some "s9", spotify_access_token := none } =
      (.error .refreshFailed, ⟨1, 0, 1⟩) := by
  have h := (C8_refresh_failure_is_fatal (fun c => if c = "R" then some "r2" else none)
    (fun s => s) (fun _ => .error ()) 50
    [{ id := "s9", user_id := "u9", access_token := "A", refresh_token := "R",
       expires_at := 1000, type := "session_tokens" }]
    { user_id := "u9", session_id := some "s9", spotify_access_token := none }).1
  exact h "s9" _ "r2" rfl rfl (by decide) rfl (Or.inl (by decide)) (by decide) rfl
    (by decide) rfl

end MusicDiscovery
